import Mathlib

/-!
Verification of the SSE chatbot client (src/sse_chatbot.py).

We shallowly embed the conversation-session bookkeeping and the SSE
stream-decoding loop of OpenAIChatbot.chat, including the Python dynamic
typing semantics of the JSON shape inspection (membership tests,
subscripting, len, .get) so that TypeError/AttributeError/KeyError
behaviour is faithfully represented, together with a model of
json.loads as a strict JSON reader.
-/

/-- A JSON value as produced by json.loads.  Numbers keep their source
text: no claim depends on numeric values, only on the value's shape.
Object fields are stored deduplicated (last occurrence of a key wins),
matching the dict produced by json.loads. -/
inductive Json where
  | null : Json
  | bool (b : Bool) : Json
  | num (raw : String) : Json
  | str (s : String) : Json
  | arr (items : List Json) : Json
  | obj (fields : List (String × Json)) : Json

/-- Whitespace accepted by the json module between tokens. -/
def jsonWs (c : Char) : Bool :=
  c = ' ' || c = '\t' || c = '\n' || c = '\r'

/-- Drop leading JSON whitespace. -/
def skipWs : List Char → List Char
  | [] => []
  | c :: rest => if jsonWs c then skipWs rest else c :: rest

/-- Value of one hexadecimal digit, as in a \u escape. -/
def hexDigitVal (c : Char) : Option Nat :=
  if '0' ≤ c ∧ c ≤ '9' then some (c.toNat - '0'.toNat)
  else if 'a' ≤ c ∧ c ≤ 'f' then some (c.toNat - 'a'.toNat + 10)
  else if 'A' ≤ c ∧ c ≤ 'F' then some (c.toNat - 'A'.toNat + 10)
  else none

/-- Body of a JSON string literal after the opening quote; handles the
escape sequences json.loads accepts and rejects raw control characters
(strict mode).  Returns the decoded string and the input after the
closing quote. -/
def parseStringBody : Nat → List Char → List Char → Option (String × List Char)
  | 0, _, _ => none
  | _ + 1, [], _ => none
  | fuel + 1, c :: rest, acc =>
    if c = '"' then some (String.mk acc.reverse, rest)
    else if c = '\\' then
      match rest with
      | [] => none
      | e :: rest2 =>
        if e = '"' then parseStringBody fuel rest2 ('"' :: acc)
        else if e = '\\' then parseStringBody fuel rest2 ('\\' :: acc)
        else if e = '/' then parseStringBody fuel rest2 ('/' :: acc)
        else if e = 'b' then parseStringBody fuel rest2 ('\x08' :: acc)
        else if e = 'f' then parseStringBody fuel rest2 ('\x0c' :: acc)
        else if e = 'n' then parseStringBody fuel rest2 ('\n' :: acc)
        else if e = 'r' then parseStringBody fuel rest2 ('\r' :: acc)
        else if e = 't' then parseStringBody fuel rest2 ('\t' :: acc)
        else if e = 'u' then
          match rest2 with
          | h1 :: h2 :: h3 :: h4 :: rest3 =>
            match hexDigitVal h1, hexDigitVal h2, hexDigitVal h3, hexDigitVal h4 with
            | some v1, some v2, some v3, some v4 =>
              parseStringBody fuel rest3
                (Char.ofNat (((v1 * 16 + v2) * 16 + v3) * 16 + v4) :: acc)
            | _, _, _, _ => none
          | _ => none
        else none
    else if c.toNat < 0x20 then none
    else parseStringBody fuel rest (c :: acc)

/-- Longest run of decimal digits at the front of the input. -/
def takeDigits : List Char → List Char × List Char
  | [] => ([], [])
  | c :: rest =>
    if '0' ≤ c ∧ c ≤ '9' then
      match takeDigits rest with
      | (ds, rem) => (c :: ds, rem)
    else ([], c :: rest)

/-- JSON number grammar (with the leading minus sign, if any, already
consumed): int part with no leading zeros, optional fraction, optional
exponent.  Returns the consumed characters (without the sign). -/
def parseNumTail (cs : List Char) : Option (List Char × List Char) :=
  match cs with
  | [] => none
  | c :: rest =>
    if c = '0' then
      some ([c], rest)
    else if '1' ≤ c ∧ c ≤ '9' then
      match takeDigits rest with
      | (ds, rem) => some (c :: ds, rem)
    else none

/-- Optional fraction part: a dot followed by one or more digits. -/
def parseFrac (cs : List Char) : Option (List Char × List Char) :=
  match cs with
  | '.' :: rest =>
    match takeDigits rest with
    | ([], _) => none
    | (ds, rem) => some ('.' :: ds, rem)
  | _ => some ([], cs)

/-- Optional exponent part: e or E, optional sign, one or more digits. -/
def parseExp (cs : List Char) : Option (List Char × List Char) :=
  match cs with
  | c :: rest =>
    if c = 'e' ∨ c = 'E' then
      match rest with
      | s :: rest2 =>
        if s = '+' ∨ s = '-' then
          match takeDigits rest2 with
          | ([], _) => none
          | (ds, rem) => some (c :: s :: ds, rem)
        else
          match takeDigits rest with
          | ([], _) => none
          | (ds, rem) => some (c :: ds, rem)
      | [] => none
    else some ([], c :: rest)
  | [] => some ([], [])

/-- A complete JSON number starting at the input (sign included),
or the NaN/Infinity extensions json.loads accepts by default. -/
def parseNumber (cs : List Char) : Option (Json × List Char) :=
  match cs with
  | 'N' :: 'a' :: 'N' :: rest => some (Json.num "NaN", rest)
  | 'I' :: 'n' :: 'f' :: 'i' :: 'n' :: 'i' :: 't' :: 'y' :: rest =>
    some (Json.num "Infinity", rest)
  | '-' :: 'I' :: 'n' :: 'f' :: 'i' :: 'n' :: 'i' :: 't' :: 'y' :: rest =>
    some (Json.num "-Infinity", rest)
  | '-' :: rest =>
    match parseNumTail rest with
    | none => none
    | some (intPart, rem1) =>
      match parseFrac rem1 with
      | none => none
      | some (fracPart, rem2) =>
        match parseExp rem2 with
        | none => none
        | some (expPart, rem3) =>
          some (Json.num (String.mk ('-' :: (intPart ++ fracPart ++ expPart))), rem3)
  | _ =>
    match parseNumTail cs with
    | none => none
    | some (intPart, rem1) =>
      match parseFrac rem1 with
      | none => none
      | some (fracPart, rem2) =>
        match parseExp rem2 with
        | none => none
        | some (expPart, rem3) =>
          some (Json.num (String.mk (intPart ++ fracPart ++ expPart)), rem3)

/-- Insert a key/value pair into an object's field list the way dict
assignment does: replace the value in place if the key is present,
append otherwise. -/
def insertField : List (String × Json) → String → Json → List (String × Json)
  | [], k, v => [(k, v)]
  | (k', v') :: rest, k, v =>
    if k' = k then (k', v) :: rest else (k', v') :: insertField rest k v

mutual

/-- One JSON value, with leading whitespace allowed.  Fuel bounds the
recursion; json_loads supplies more than enough for its input. -/
def parseValue : Nat → List Char → Option (Json × List Char)
  | 0, _ => none
  | fuel + 1, cs =>
    match skipWs cs with
    | [] => none
    | c :: rest =>
      if c = '"' then parseStringBody (fuel + 1) rest [] |>.map fun (s, rem) => (Json.str s, rem)
      else if c = '{' then
        match skipWs rest with
        | '}' :: rem => some (Json.obj [], rem)
        | other => parseObjItems fuel other []
      else if c = '[' then
        match skipWs rest with
        | ']' :: rem => some (Json.arr [], rem)
        | other =>
          match parseValue fuel other with
          | none => none
          | some (v, rem) => parseArrItems fuel rem [v]
      else
        match c :: rest with
        | 't' :: 'r' :: 'u' :: 'e' :: rem => some (Json.bool true, rem)
        | 'f' :: 'a' :: 'l' :: 's' :: 'e' :: rem => some (Json.bool false, rem)
        | 'n' :: 'u' :: 'l' :: 'l' :: rem => some (Json.null, rem)
        | other => parseNumber other

/-- Further array elements, after the elements already in acc:
either a closing bracket or a comma followed by a value. -/
def parseArrItems : Nat → List Char → List Json → Option (Json × List Char)
  | 0, _, _ => none
  | fuel + 1, cs, acc =>
    match skipWs cs with
    | ']' :: rem => some (Json.arr acc, rem)
    | ',' :: rest =>
      match parseValue fuel rest with
      | none => none
      | some (v, rem) => parseArrItems fuel rem (acc ++ [v])
    | _ => none

/-- Object members: a string key, a colon, a value; then a comma and
more members or a closing brace. -/
def parseObjItems : Nat → List Char → List (String × Json) → Option (Json × List Char)
  | 0, _, _ => none
  | fuel + 1, cs, acc =>
    match skipWs cs with
    | '"' :: rest =>
      match parseStringBody (fuel + 1) rest [] with
      | none => none
      | some (k, rem1) =>
        match skipWs rem1 with
        | ':' :: rem2 =>
          match parseValue fuel rem2 with
          | none => none
          | some (v, rem3) =>
            match skipWs rem3 with
            | '}' :: rem4 => some (Json.obj (insertField acc k v), rem4)
            | ',' :: rem4 => parseObjItems fuel rem4 (insertField acc k v)
            | _ => none
        | _ => none
    | _ => none

end

/-- Model of json.loads: parse one JSON document and require that only
whitespace follows it. -/
def json_loads (s : String) : Option Json :=
  match parseValue (2 * s.length + 8) s.data with
  | none => none
  | some (v, rest) =>
    match skipWs rest with
    | [] => some v
    | _ => none

/-- The exceptions the shape-inspection code can raise at run time.
JSONDecodeError never reaches this level: the inner try/except catches
it, and our json_loads returns none instead. -/
inductive PyError where
  | typeError : PyError
  | attributeError : PyError
  | keyError : PyError
  | indexError : PyError
deriving DecidableEq, Repr

/-- Abstraction of str(e) for the f-string in the except handler; the
claims never inspect the message text, only its presence. -/
def pyErrorMessage : PyError → String
  | PyError.typeError => "TypeError"
  | PyError.attributeError => "AttributeError"
  | PyError.keyError => "KeyError"
  | PyError.indexError => "IndexError"

/-- One character list is an initial segment of another. -/
def charsStart : List Char → List Char → Bool
  | [], _ => true
  | _ :: _, [] => false
  | p :: ps, c :: cs => p == c && charsStart ps cs

/-- Model of str.startswith: t is an initial segment of s. -/
def strStarts (s t : String) : Bool :=
  charsStart t.data s.data

/-- Substring test, the meaning of the in operator on Python strings. -/
def strContainsSub (hay needle : String) : Bool :=
  (List.range (hay.length + 1)).any fun i => strStarts (hay.drop i) needle

/-- Lookup in an object's (deduplicated) field list. -/
def objLookup : List (String × Json) → String → Option Json
  | [], _ => none
  | (k', v) :: rest, k => if k' = k then some v else objLookup rest k

/-- Python: key in v, for a string key.  Key test on dicts, membership
on lists (a string equals no other JSON shape), substring on strings;
TypeError on anything non-iterable. -/
def pyContains (key : String) (v : Json) : Except PyError Bool :=
  match v with
  | Json.obj fields => Except.ok (fields.any fun p => p.1 == key)
  | Json.arr items =>
    Except.ok (items.any fun item =>
      match item with
      | Json.str s => s == key
      | _ => false)
  | Json.str s => Except.ok (strContainsSub s key)
  | _ => Except.error PyError.typeError

/-- Python: len(v).  TypeError on values without a length. -/
def pyLen (v : Json) : Except PyError Nat :=
  match v with
  | Json.str s => Except.ok s.length
  | Json.arr items => Except.ok items.length
  | Json.obj fields => Except.ok fields.length
  | _ => Except.error PyError.typeError

/-- Python: v[key] for a string key.  Only dicts accept string
subscripts; strings and lists want integer indices (TypeError). -/
def pyGetItemStr (v : Json) (key : String) : Except PyError Json :=
  match v with
  | Json.obj fields =>
    match objLookup fields key with
    | some j => Except.ok j
    | none => Except.error PyError.keyError
  | _ => Except.error PyError.typeError

/-- Python: v[0].  First element of a list, one-character string of a
string, KeyError on a dict (0 is never a key of a JSON-derived dict),
TypeError otherwise. -/
def pyGetZero (v : Json) : Except PyError Json :=
  match v with
  | Json.arr items =>
    match items with
    | j :: _ => Except.ok j
    | [] => Except.error PyError.indexError
  | Json.str s =>
    match s.data with
    | c :: _ => Except.ok (Json.str (String.mk [c]))
    | [] => Except.error PyError.indexError
  | Json.obj _ => Except.error PyError.keyError
  | _ => Except.error PyError.typeError

/-- Python: v.get(key, dflt).  Only dicts have a get attribute. -/
def pyGetDefault (v : Json) (key : String) (dflt : Json) : Except PyError Json :=
  match v with
  | Json.obj fields => Except.ok ((objLookup fields key).getD dflt)
  | _ => Except.error PyError.attributeError

/-- The body of the inner try block of chat, lines 101 to 106: inspect
a parsed event and extract the delta content fragment, if any.  The
order of operations matches the source so the first exception Python
would raise is the one returned:

    if 'choices' in event_data and len(event_data['choices']) > 0:
        delta = event_data['choices'][0].get('delta', {})
        if 'content' in delta:
            content = delta['content']
            ... assistant_message += content   (TypeError unless str)
-/
def extractFragment (event_data : Json) : Except PyError (Option String) := do
  let hasChoices ← pyContains "choices" event_data
  if hasChoices then
    let choices ← pyGetItemStr event_data "choices"
    let n ← pyLen choices
    if 0 < n then
      let first ← pyGetZero choices
      let delta ← pyGetDefault first "delta" (Json.obj [])
      let hasContent ← pyContains "content" delta
      if hasContent then
        let content ← pyGetItemStr delta "content"
        match content with
        | Json.str s => pure (some s)
        | _ => Except.error PyError.typeError
      else pure none
    else pure none
  else pure none

/-- What processing one line of the SSE stream does to the loop. -/
inductive LineOutcome where
  | skip : LineOutcome
  | fragment (s : String) : LineOutcome
  | done : LineOutcome
  | err (e : PyError) : LineOutcome
deriving DecidableEq, Repr

/-- One iteration of the for loop of chat, lines 82 to 109: empty lines
are skipped, lines without the data marker are skipped, the [DONE]
sentinel breaks the loop, unparsable payloads are skipped via the
except JSONDecodeError handler, and shape inspection either yields a
fragment, nothing, or an exception. -/
def decodeLine (line : String) : LineOutcome :=
  if line = "" then LineOutcome.skip
  else if strStarts line "data: " then
    let data := line.drop 6
    if data = "[DONE]" then LineOutcome.done
    else
      match json_loads data with
      | none => LineOutcome.skip
      | some event_data =>
        match extractFragment event_data with
        | Except.ok (some s) => LineOutcome.fragment s
        | Except.ok none => LineOutcome.skip
        | Except.error e => LineOutcome.err e
  else LineOutcome.skip

/-- Result of draining the stream: the loop either finishes (break on
the sentinel, or the line iterator is exhausted) with the accumulated
assistant_message, or an exception escapes the loop. -/
inductive StreamResult where
  | ok (assistant_message : String) : StreamResult
  | err (e : PyError) : StreamResult
deriving DecidableEq, Repr

/-- The whole for loop: fold decodeLine over the lines, accumulating
assistant_message exactly as the source concatenates fragments. -/
def runStream : List String → String → StreamResult
  | [], acc => StreamResult.ok acc
  | line :: rest, acc =>
    match decodeLine line with
    | LineOutcome.skip => runStream rest acc
    | LineOutcome.fragment s => runStream rest (acc ++ s)
    | LineOutcome.done => StreamResult.ok acc
    | LineOutcome.err e => StreamResult.err e

/-- The fragments the decoder emits before the stream ends, in arrival
order.  An exception also cuts the sequence short. -/
def streamFragments : List String → List String
  | [] => []
  | line :: rest =>
    match decodeLine line with
    | LineOutcome.skip => streamFragments rest
    | LineOutcome.fragment s => s :: streamFragments rest
    | LineOutcome.done => []
    | LineOutcome.err _ => []

/-- Concatenation of fragments in arrival order. -/
def concatFrags : List String → String
  | [] => ""
  | s :: rest => s ++ concatFrags rest

/-- Message roles used by the chat-completions payload. -/
inductive Role where
  | system : Role
  | user : Role
  | assistant : Role
deriving DecidableEq, Repr

/-- One entry of the messages list: a role/content dict. -/
structure Message where
  role : Role
  content : String
deriving DecidableEq, Repr

/-- The mutable state of OpenAIChatbot: the stored history and the
current system prompt.  The api_key, api_url and model fields only feed
the outbound request and never influence the session bookkeeping, so
they are not carried. -/
structure Chatbot where
  messages : List Message
  system_message : String
deriving DecidableEq, Repr

/-- The state __init__ leaves behind: empty history and the default
system prompt. -/
def initChatbot : Chatbot :=
  { messages := [], system_message := "You are a helpful assistant." }

/-- OpenAIChatbot.set_system_message. -/
def set_system_message (bot : Chatbot) (message : String) : Chatbot :=
  { bot with system_message := message }

/-- OpenAIChatbot.clear_conversation. -/
def clear_conversation (bot : Chatbot) : Chatbot :=
  { bot with messages := [] }

/-- Line 51 of chat: the request message list, a fresh system entry
followed by the stored history. -/
def full_messages (bot : Chatbot) : List Message :=
  Message.mk Role.system bot.system_message :: bot.messages

/-- Python list.pop(): removes and discards the last element, raising
IndexError on an empty list. -/
def listPop (l : List Message) : Except PyError (List Message) :=
  match l with
  | [] => Except.error PyError.indexError
  | _ :: _ => Except.ok l.dropLast

/-- What the transport layer does for one exchange, as seen at the
exception boundary of chat: either the POST succeeds (2xx) and the body
yields this list of lines, or requests raises Timeout, another
RequestException (connection refused, non-2xx via raise_for_status,
mid-stream transport failure), or some other exception. -/
inductive Transport where
  | success (lines : List String) : Transport
  | timeout : Transport
  | requestError (msg : String) : Transport
  | otherError (msg : String) : Transport

/-- OpenAIChatbot.chat, lines 36 to 132.  The user message is appended
before the try block; on success the accumulated assistant message is
appended and returned; each except handler pops the last history entry
and returns an error string.  The outer Except is an exception escaping
chat itself, which the source does not handle (it can only come from
pop, as the proofs show it never does). -/
def chat (bot : Chatbot) (user_input : String) (t : Transport) :
    Except PyError (Chatbot × String) :=
  let bot1 : Chatbot :=
    { bot with messages := bot.messages ++ [Message.mk Role.user user_input] }
  match t with
  | Transport.success lines =>
    match runStream lines "" with
    | StreamResult.ok assistant_message =>
      Except.ok
        ({ bot1 with
            messages := bot1.messages ++ [Message.mk Role.assistant assistant_message] },
          assistant_message)
    | StreamResult.err e =>
      match listPop bot1.messages with
      | Except.ok ms =>
        Except.ok ({ bot1 with messages := ms }, "Error: " ++ pyErrorMessage e)
      | Except.error e' => Except.error e'
  | Transport.timeout =>
    match listPop bot1.messages with
    | Except.ok ms => Except.ok ({ bot1 with messages := ms }, "Request timed out")
    | Except.error e' => Except.error e'
  | Transport.requestError msg =>
    match listPop bot1.messages with
    | Except.ok ms => Except.ok ({ bot1 with messages := ms }, "Network error: " ++ msg)
    | Except.error e' => Except.error e'
  | Transport.otherError msg =>
    match listPop bot1.messages with
    | Except.ok ms => Except.ok ({ bot1 with messages := ms }, "Error: " ++ msg)
    | Except.error e' => Except.error e'

/-- True when the exchange fails: a transport-level exception, or a
stream whose decoding raises. -/
def transportFails (t : Transport) : Bool :=
  match t with
  | Transport.success lines =>
    match runStream lines "" with
    | StreamResult.ok _ => false
    | StreamResult.err _ => true
  | _ => true

/-- Session states reachable from the initial one through the public
operations: set_system_message, clear_conversation, and completed chat
calls with any input and any transport behaviour. -/
inductive Reachable : Chatbot → Prop
  | init : Reachable initChatbot
  | set_system (bot : Chatbot) (msg : String) :
      Reachable bot → Reachable (set_system_message bot msg)
  | clear (bot : Chatbot) :
      Reachable bot → Reachable (clear_conversation bot)
  | chat_step (bot : Chatbot) (input : String) (t : Transport)
      (bot' : Chatbot) (out : String) :
      Reachable bot → chat bot input t = Except.ok (bot', out) → Reachable bot'

/-- The stored history never contains a system-role entry. -/
def noSystem (bot : Chatbot) : Prop :=
  ∀ m ∈ bot.messages, m.role ≠ Role.system

example : json_loads "null" = some Json.null := rfl
example : json_loads "[DONE]" = none := rfl
example : json_loads "\x7bnot valid json\x7d" = none := rfl
example : json_loads "\x7b\"choices\":[\x7b\"delta\":\x7b\"content\":\"Hi\"\x7d\x7d]\x7d" =
    some (Json.obj [("choices",
      Json.arr [Json.obj [("delta", Json.obj [("content", Json.str "Hi")])]])]) := rfl
example : json_loads " \x7b\"a\": 1, \"a\": 2.5e-3\x7d " =
    some (Json.obj [("a", Json.num "2.5e-3")]) := rfl
example : json_loads "01" = none := rfl
example : json_loads "1 2" = none := rfl

example : decodeLine "data: \x7b\"choices\":[\x7b\"delta\":\x7b\"content\":\"Hi\"\x7d\x7d]\x7d" =
    LineOutcome.fragment "Hi" := rfl
example : decodeLine "data: [DONE]" = LineOutcome.done := rfl
example : decodeLine "" = LineOutcome.skip := rfl
example : decodeLine "event: foo" = LineOutcome.skip := rfl
example : decodeLine "data: \x7bnot valid json\x7d" = LineOutcome.skip := rfl
example : decodeLine "data: null" = LineOutcome.err PyError.typeError := rfl
example : decodeLine "data: 5" = LineOutcome.err PyError.typeError := rfl
example : decodeLine "data: [1, 2]" = LineOutcome.skip := rfl
example : decodeLine "data: \"xchoicesx\"" = LineOutcome.err PyError.typeError := rfl
example : decodeLine "data: [\"choices\"]" = LineOutcome.err PyError.typeError := rfl
example : decodeLine "data: \x7b\"choices\": []\x7d" = LineOutcome.skip := rfl
example : decodeLine "data: \x7b\"choices\": [\x7b\x7d]\x7d" = LineOutcome.skip := rfl
example : decodeLine "data: \x7b\"choices\": [5]\x7d" = LineOutcome.err PyError.attributeError := rfl
example : decodeLine "data: \x7b\"choices\": \"abc\"\x7d" = LineOutcome.err PyError.attributeError := rfl
example : decodeLine "data: \x7b\"choices\": [\x7b\"delta\": \x7b\"content\": 5\x7d\x7d]\x7d" =
    LineOutcome.err PyError.typeError := rfl
example : decodeLine "data: \x7b\"choices\": [\x7b\"delta\": \x7b\"role\": \"assistant\"\x7d\x7d]\x7d" =
    LineOutcome.skip := rfl
example : runStream ["data: \x7b\"choices\":[\x7b\"delta\":\x7b\"content\":\"A\"\x7d\x7d]\x7d", "",
    "data: \x7b\"choices\":[\x7b\"delta\":\x7b\"content\":\"B\"\x7d\x7d]\x7d", "data: [DONE]"] "" =
    StreamResult.ok "AB" := rfl

example :
    chat initChatbot "hi" (Transport.success ["data: [DONE]"]) =
      Except.ok
        ({ messages := [Message.mk Role.user "hi", Message.mk Role.assistant ""],
           system_message := "You are a helpful assistant." }, "") := rfl
example :
    chat initChatbot "hi" Transport.timeout =
      Except.ok (initChatbot, "Request timed out") := rfl
example :
    chat initChatbot "hi" (Transport.success ["data: null"]) =
      Except.ok (initChatbot, "Error: TypeError") := rfl
example : listPop [] = Except.error PyError.indexError := rfl

/-- Popping a list that ends in a known element removes exactly that
element. -/
theorem listPop_concat (l : List Message) (x : Message) :
    listPop (l ++ [x]) = Except.ok l := by
  cases l with
  | nil => rfl
  | cons a as =>
    show Except.ok (((a :: as) ++ [x]).dropLast) = _
    rw [List.dropLast_concat]

/-- A completed stream accumulates exactly the concatenation of the
emitted fragments after whatever was already accumulated. -/
theorem runStream_ok_concat (lines : List String) :
    ∀ acc m, runStream lines acc = StreamResult.ok m →
      m = acc ++ concatFrags (streamFragments lines) := by
  induction lines with
  | nil =>
    intro acc m h
    simp only [runStream, StreamResult.ok.injEq] at h
    simp [streamFragments, concatFrags, ← h, String.append_empty]
  | cons line rest ih =>
    intro acc m h
    simp only [runStream] at h
    cases hd : decodeLine line with
    | skip =>
      rw [hd] at h
      simpa [streamFragments, hd] using ih acc m h
    | fragment s =>
      rw [hd] at h
      have := ih (acc ++ s) m h
      simp [streamFragments, hd, concatFrags, this, String.append_assoc]
    | done =>
      rw [hd] at h
      cases h
      simp [streamFragments, hd, concatFrags, String.append_empty]
    | err e =>
      rw [hd] at h
      cases h

/-- A successful chat exchange appends the user turn and the decoded
assistant message; a failed one returns the state unchanged. -/
theorem chat_ok_state (bot : Chatbot) (input : String) (t : Transport)
    (bot' : Chatbot) (out : String)
    (h : chat bot input t = Except.ok (bot', out)) :
    bot' = { bot with messages := bot.messages ++
        [Message.mk Role.user input, Message.mk Role.assistant out] }
    ∨ bot' = bot := by
  cases t with
  | success lines =>
    simp only [chat] at h
    cases hr : runStream lines "" with
    | ok msg =>
      rw [hr] at h
      simp only [Except.ok.injEq, Prod.mk.injEq] at h
      left
      rw [← h.1, h.2]
      simp
    | err e =>
      rw [hr, listPop_concat] at h
      simp only [Except.ok.injEq, Prod.mk.injEq] at h
      right
      exact h.1.symm
  | timeout =>
    rw [show chat bot input Transport.timeout =
      Except.ok (bot, "Request timed out") by simp [chat, listPop_concat]] at h
    simp only [Except.ok.injEq, Prod.mk.injEq] at h
    right
    exact h.1.symm
  | requestError msg =>
    rw [show chat bot input (Transport.requestError msg) =
      Except.ok (bot, "Network error: " ++ msg) by simp [chat, listPop_concat]] at h
    simp only [Except.ok.injEq, Prod.mk.injEq] at h
    right
    exact h.1.symm
  | otherError msg =>
    rw [show chat bot input (Transport.otherError msg) =
      Except.ok (bot, "Error: " ++ msg) by simp [chat, listPop_concat]] at h
    simp only [Except.ok.injEq, Prod.mk.injEq] at h
    right
    exact h.1.symm

/-- The no-system invariant holds in every reachable session state. -/
theorem reachable_noSystem (bot : Chatbot) (h : Reachable bot) : noSystem bot := by
  induction h with
  | init => intro m hm; cases hm
  | set_system bot msg _ ih =>
    intro m hm
    exact ih m hm
  | clear bot _ _ =>
    intro m hm
    cases hm
  | chat_step bot input t bot' out _ hchat ih =>
    rcases chat_ok_state bot input t bot' out hchat with hnew | hsame
    · intro m hm
      rw [hnew] at hm
      simp only [List.mem_append, List.mem_cons, List.mem_singleton,
        List.not_mem_nil, or_false] at hm
      rcases hm with h1 | h2 | h2
      · exact ih m h1
      · rw [h2]; intro hc; cases hc
      · rw [h2]; intro hc; cases hc
    · rw [hsame]
      exact ih

/-- C1: for every successful exchange (the stream ends on the [DONE]
sentinel or at end of input without an exception), the assistant
message appended to history equals the concatenation, in arrival
order, of all content fragments the decoder emitted, and chat returns
that same string. -/
theorem stream_concat_is_appended_message (bot : Chatbot) (input : String)
    (lines : List String) (msg : String)
    (h : runStream lines "" = StreamResult.ok msg) :
    msg = concatFrags (streamFragments lines) ∧
    chat bot input (Transport.success lines) =
      Except.ok ({ bot with messages := bot.messages ++
          [Message.mk Role.user input, Message.mk Role.assistant msg] }, msg) := by
  have hm : msg = concatFrags (streamFragments lines) := by
    have := runStream_ok_concat lines "" msg h
    rwa [String.empty_append] at this
  refine ⟨hm, ?_⟩
  simp [chat, h]

/-- Witness for C1: the four-line scenario of spec section 8 produces
exactly AB, which is appended and returned. -/
theorem stream_concat_is_appended_message_witness :
    runStream ["data: \x7b\"choices\":[\x7b\"delta\":\x7b\"content\":\"A\"\x7d\x7d]\x7d", "",
        "data: \x7b\"choices\":[\x7b\"delta\":\x7b\"content\":\"B\"\x7d\x7d]\x7d", "data: [DONE]"] "" =
      StreamResult.ok "AB" ∧
    ("AB" = concatFrags (streamFragments
        ["data: \x7b\"choices\":[\x7b\"delta\":\x7b\"content\":\"A\"\x7d\x7d]\x7d", "",
         "data: \x7b\"choices\":[\x7b\"delta\":\x7b\"content\":\"B\"\x7d\x7d]\x7d", "data: [DONE]"]) ∧
      chat initChatbot "question" (Transport.success
        ["data: \x7b\"choices\":[\x7b\"delta\":\x7b\"content\":\"A\"\x7d\x7d]\x7d", "",
         "data: \x7b\"choices\":[\x7b\"delta\":\x7b\"content\":\"B\"\x7d\x7d]\x7d", "data: [DONE]"]) =
        Except.ok (Chatbot.mk
          [Message.mk Role.user "question", Message.mk Role.assistant "AB"]
          "You are a helpful assistant.", "AB")) :=
  ⟨rfl, stream_concat_is_appended_message initChatbot "question"
    ["data: \x7b\"choices\":[\x7b\"delta\":\x7b\"content\":\"A\"\x7d\x7d]\x7d", "",
     "data: \x7b\"choices\":[\x7b\"delta\":\x7b\"content\":\"B\"\x7d\x7d]\x7d", "data: [DONE]"] "AB" rfl⟩

/-- C2: in every reachable session state the request message list has
exactly one system-role entry, placed first, followed by the stored
history, and the stored history contains no system-role entry. -/
theorem request_messages_single_system (bot : Chatbot) (h : Reachable bot) :
    (full_messages bot).countP (fun m => decide (m.role = Role.system)) = 1 ∧
    (full_messages bot).head? = some (Message.mk Role.system bot.system_message) ∧
    (full_messages bot).tail = bot.messages ∧
    ∀ m ∈ bot.messages, m.role ≠ Role.system := by
  have hns := reachable_noSystem bot h
  have hzero : (bot.messages).countP (fun m => decide (m.role = Role.system)) = 0 := by
    rw [List.countP_eq_zero]
    intro a ha
    simpa using hns a ha
  refine ⟨?_, rfl, rfl, hns⟩
  show ((Message.mk Role.system bot.system_message) :: bot.messages).countP _ = 1
  rw [List.countP_cons, hzero]
  simp

/-- Witness for C2: a state reached by one completed chat exchange
satisfies the request-shape properties. -/
theorem request_messages_single_system_witness :
    (full_messages (Chatbot.mk
        [Message.mk Role.user "hi", Message.mk Role.assistant ""]
        "You are a helpful assistant.")).countP
      (fun m => decide (m.role = Role.system)) = 1 ∧
    (full_messages (Chatbot.mk
        [Message.mk Role.user "hi", Message.mk Role.assistant ""]
        "You are a helpful assistant.")).head? =
      some (Message.mk Role.system "You are a helpful assistant.") ∧
    (full_messages (Chatbot.mk
        [Message.mk Role.user "hi", Message.mk Role.assistant ""]
        "You are a helpful assistant.")).tail =
      [Message.mk Role.user "hi", Message.mk Role.assistant ""] ∧
    ∀ m ∈ [Message.mk Role.user "hi", Message.mk Role.assistant ""],
      m.role ≠ Role.system :=
  request_messages_single_system
    (Chatbot.mk [Message.mk Role.user "hi", Message.mk Role.assistant ""]
      "You are a helpful assistant.")
    (Reachable.chat_step initChatbot "hi" (Transport.success ["data: [DONE]"])
      (Chatbot.mk [Message.mk Role.user "hi", Message.mk Role.assistant ""]
        "You are a helpful assistant.") ""
      Reachable.init rfl)

/-- C4: after a failed exchange (timeout, network error, or any other
exception caught at the exchange boundary, including one raised while
decoding the stream), chat returns the session state it started from:
the rollback removes exactly the just-appended user message. -/
theorem failed_exchange_exact_rollback (bot : Chatbot) (input : String)
    (t : Transport) (h : transportFails t = true) :
    ∃ out, chat bot input t = Except.ok (bot, out) := by
  cases t with
  | success lines =>
    simp only [transportFails] at h
    cases hr : runStream lines "" with
    | ok msg => rw [hr] at h; cases h
    | err e =>
      refine ⟨"Error: " ++ pyErrorMessage e, ?_⟩
      simp [chat, hr, listPop_concat]
  | timeout =>
    exact ⟨"Request timed out", by simp [chat, listPop_concat]⟩
  | requestError msg =>
    exact ⟨"Network error: " ++ msg, by simp [chat, listPop_concat]⟩
  | otherError msg =>
    exact ⟨"Error: " ++ msg, by simp [chat, listPop_concat]⟩

/-- Witness for C4: a timeout with one prior turn in history leaves the
history exactly as it was. -/
theorem failed_exchange_exact_rollback_witness :
    transportFails Transport.timeout = true ∧
    ∃ out, chat (Chatbot.mk [Message.mk Role.user "a"] "sys") "b"
        Transport.timeout =
      Except.ok (Chatbot.mk [Message.mk Role.user "a"] "sys", out) :=
  ⟨rfl, failed_exchange_exact_rollback
    (Chatbot.mk [Message.mk Role.user "a"] "sys") "b" Transport.timeout rfl⟩

/-- Counterexample to C5: the rollback is implemented as list.pop,
which on an empty history raises IndexError instead of being a no-op
or a handled error; no handler in chat surrounds the pop call. -/
theorem rollback_empty_history_raises :
    listPop ([] : List Message) = Except.error PyError.indexError := rfl

/-- C5 as amended: chat appends the user message before the try block,
so every rollback runs on a history that ends with that message and
chat never lets an exception escape; pop on an empty history would
raise IndexError, but that situation is unreachable inside chat. -/
theorem chat_never_raises (bot : Chatbot) (input : String) (t : Transport) :
    ∃ r, chat bot input t = Except.ok r := by
  cases hc : chat bot input t with
  | ok r => exact ⟨r, rfl⟩
  | error e =>
    exfalso
    cases t with
    | success lines =>
      cases hr : runStream lines "" with
      | ok msg => simp [chat, hr] at hc
      | err e2 => simp [chat, hr, listPop_concat] at hc
    | timeout => simp [chat, listPop_concat] at hc
    | requestError msg => simp [chat, listPop_concat] at hc
    | otherError msg => simp [chat, listPop_concat] at hc

/-- C6: the line data: [DONE] signals termination, emits no fragment
for that line, and no fragment is produced from any later line of the
stream. -/
theorem done_sentinel_terminates (rest : List String) (acc : String) :
    decodeLine "data: [DONE]" = LineOutcome.done ∧
    streamFragments ("data: [DONE]" :: rest) = [] ∧
    runStream ("data: [DONE]" :: rest) acc = StreamResult.ok acc := by
  refine ⟨rfl, ?_, ?_⟩ <;>
    simp [streamFragments, runStream,
      show decodeLine "data: [DONE]" = LineOutcome.done from rfl]

/-- C8: a blank line, and any line that does not begin with the
literal marker data-colon-space, emits no fragment and does not
terminate the stream: the loop continues with the next line as if the
line were absent. -/
theorem blank_or_nondata_line_ignored (line : String)
    (h : line = "" ∨ strStarts line "data: " = false) :
    decodeLine line = LineOutcome.skip ∧
    ∀ rest acc, runStream (line :: rest) acc = runStream rest acc ∧
      streamFragments (line :: rest) = streamFragments rest := by
  have hskip : decodeLine line = LineOutcome.skip := by
    rcases h with h | h
    · simp [decodeLine, h]
    · by_cases he : line = "" <;> simp [decodeLine, he, h]
  refine ⟨hskip, fun rest acc => ⟨?_, ?_⟩⟩ <;>
    simp [runStream, streamFragments, hskip]

/-- Witness for C8: an SSE comment-style line is ignored. -/
theorem blank_or_nondata_line_ignored_witness :
    decodeLine "event: ping" = LineOutcome.skip ∧
    ∀ rest acc, runStream ("event: ping" :: rest) acc = runStream rest acc ∧
      streamFragments ("event: ping" :: rest) = streamFragments rest :=
  blank_or_nondata_line_ignored "event: ping" (Or.inr rfl)

/-- C9: clear_conversation empties the history, leaves the system
prompt untouched, and a subsequent request build yields exactly the
single system entry. -/
theorem clear_preserves_system_prompt (bot : Chatbot) :
    (clear_conversation bot).messages = [] ∧
    (clear_conversation bot).system_message = bot.system_message ∧
    full_messages (clear_conversation bot) =
      [Message.mk Role.system bot.system_message] :=
  ⟨rfl, rfl, rfl⟩

/-- C10: when the stream completes without emitting any fragment, chat
still appends an assistant message with empty content and returns the
empty string. -/
theorem empty_stream_appends_empty_message (bot : Chatbot) (input : String)
    (lines : List String) (msg : String)
    (h1 : runStream lines "" = StreamResult.ok msg)
    (h2 : streamFragments lines = []) :
    chat bot input (Transport.success lines) =
      Except.ok ({ bot with messages := bot.messages ++
          [Message.mk Role.user input, Message.mk Role.assistant ""] }, "") := by
  have hm : msg = "" := by
    have := runStream_ok_concat lines "" msg h1
    rw [h2] at this
    simpa [concatFrags] using this
  rw [hm] at h1
  simp [chat, h1]

/-- Witness for C10: a stream consisting of the sentinel alone yields
an empty assistant message that is still recorded. -/
theorem empty_stream_appends_empty_message_witness :
    runStream ["data: [DONE]"] "" = StreamResult.ok "" ∧
    streamFragments ["data: [DONE]"] = [] ∧
    chat initChatbot "hi" (Transport.success ["data: [DONE]"]) =
      Except.ok (Chatbot.mk
        [Message.mk Role.user "hi", Message.mk Role.assistant ""]
        "You are a helpful assistant.", "") :=
  ⟨rfl, rfl, empty_stream_appends_empty_message initChatbot "hi"
    ["data: [DONE]"] "" rfl rfl⟩

/-- Counterexample to C3: the payload null parses as a JSON value, yet
decoding the line raises a TypeError (the membership test on a
non-container), which escapes the inner try block and aborts the
exchange at the outer handler: the user turn is rolled back and an
error string is returned instead of an assistant message. -/
theorem nonobject_payload_aborts_exchange :
    json_loads "null" = some Json.null ∧
    decodeLine "data: null" = LineOutcome.err PyError.typeError ∧
    chat initChatbot "hi" (Transport.success ["data: null"]) =
      Except.ok (initChatbot, "Error: TypeError") :=
  ⟨rfl, rfl, rfl⟩

/-- C3 as amended: the decoder never raises for a line whose payload
fails to parse as JSON, and it never raises for blank or non-data
lines; every exception it raises comes from a line whose payload
parsed successfully but has an unexpected shape (such as the non-object
value null), and such an exception aborts the exchange. -/
theorem decoder_error_only_from_parsed_payload (line : String) (e : PyError)
    (h : decodeLine line = LineOutcome.err e) :
    line ≠ "" ∧ strStarts line "data: " = true ∧ line.drop 6 ≠ "[DONE]" ∧
    ∃ j, json_loads (line.drop 6) = some j := by
  by_cases h1 : line = ""
  · rw [h1] at h; cases h
  · by_cases h2 : strStarts line "data: " = true
    · by_cases h3 : line.drop 6 = "[DONE]"
      · rw [decodeLine, if_neg h1, if_pos h2, if_pos h3] at h
        cases h
      · refine ⟨h1, h2, h3, ?_⟩
        rw [decodeLine, if_neg h1, if_pos h2, if_neg h3] at h
        cases hj : json_loads (line.drop 6) with
        | none => rw [hj] at h; cases h
        | some j => exact ⟨j, rfl⟩
    · rw [decodeLine, if_neg h1, if_neg h2] at h
      cases h

/-- Witness for the amended C3: the TypeError raised on data: null
indeed comes from a successfully parsed payload. -/
theorem decoder_error_only_from_parsed_payload_witness :
    ("data: null" : String) ≠ "" ∧
    strStarts "data: null" "data: " = true ∧
    ("data: null" : String).drop 6 ≠ "[DONE]" ∧
    ∃ j, json_loads (("data: null" : String).drop 6) = some j :=
  decoder_error_only_from_parsed_payload "data: null" PyError.typeError rfl

/-- Counterexample to C7: the payload of the line data: [DONE] is not
valid JSON, yet that line terminates the stream rather than being
skipped: a content fragment on a later line is never emitted. -/
theorem sentinel_payload_is_invalid_json_yet_terminates :
    strStarts "data: [DONE]" "data: " = true ∧
    json_loads (("data: [DONE]" : String).drop 6) = none ∧
    decodeLine "data: [DONE]" = LineOutcome.done ∧
    runStream ["data: [DONE]",
      "data: \x7b\"choices\":[\x7b\"delta\":\x7b\"content\":\"X\"\x7d\x7d]\x7d"] "" =
      StreamResult.ok "" :=
  ⟨rfl, rfl, rfl, rfl⟩

/-- C7 as amended: for every line bearing the data marker whose payload
is not valid JSON and is not the [DONE] sentinel, decoding emits no
fragment, does not terminate the stream, and surfaces nothing: the
loop continues with the next line. -/
theorem invalid_json_payload_skipped (line : String)
    (h1 : strStarts line "data: " = true)
    (h2 : line.drop 6 ≠ "[DONE]")
    (h3 : json_loads (line.drop 6) = none) :
    decodeLine line = LineOutcome.skip ∧
    ∀ rest acc, runStream (line :: rest) acc = runStream rest acc ∧
      streamFragments (line :: rest) = streamFragments rest := by
  have hne : line ≠ "" := by
    intro he
    rw [he] at h1
    exact absurd h1 (by decide)
  have hskip : decodeLine line = LineOutcome.skip := by
    rw [decodeLine, if_neg hne, if_pos h1, if_neg h2, h3]
  refine ⟨hskip, fun rest acc => ⟨?_, ?_⟩⟩ <;>
    simp [runStream, streamFragments, hskip]

/-- Witness for the amended C7: a malformed payload in braces is
skipped and the stream continues. -/
theorem invalid_json_payload_skipped_witness :
    decodeLine "data: \x7bnot valid json\x7d" = LineOutcome.skip ∧
    ∀ rest acc, runStream ("data: \x7bnot valid json\x7d" :: rest) acc =
        runStream rest acc ∧
      streamFragments ("data: \x7bnot valid json\x7d" :: rest) =
        streamFragments rest :=
  invalid_json_payload_skipped "data: \x7bnot valid json\x7d" rfl (by decide) rfl
